import Mathlib

/-!
Verification of the dynamic page-rendering pipeline of the liveenity server
(src/server.js).  Strings are embedded as lists of characters.  The
JavaScript `String.prototype.replace` calls of the two `servePages` handler
copies use regular expressions built from literals, greedy character-class
stars (`[^<]*`), lazy stars (`[^"]*?`, `[\s\S]*?`, `.*?`), greedy plus
(`\s+`) and capture groups, so the embedding provides a small backtracking
matcher with exactly those constructs, with JavaScript priority semantics
(leftmost match; greedy tries longest first, lazy shortest first), plus the
`$n`/`$&` replacement-text expansion of `String.replace`.
-/

set_option maxRecDepth 4000
set_option maxHeartbeats 4000000

abbrev Str := List Char

def str (s : String) : Str := s.data

/-- One regex atom: a literal, or a star/plus over a single-character class. -/
inductive Atom where
| lit : Str → Atom
| starGreedy : (Char → Bool) → Atom
| starLazy : (Char → Bool) → Atom
| plusGreedy : (Char → Bool) → Atom

/-- A piece of a regex: a sequence of atoms, optionally wrapped in a capture group. -/
structure Piece where
  grouped : Bool
  atoms : List Atom

/-- First successful application of f over a list of candidate gap lengths. -/
def firstSome {α : Type} (f : Nat → Option α) : List Nat → Option α
| [] => none
| n :: ns =>
  match f n with
  | some b => some b
  | none => firstSome f ns

/-- Length of the maximal run of characters satisfying p at the head of s. -/
def runLen (p : Char → Bool) (s : Str) : Nat := (s.takeWhile p).length

/-- Backtracking matcher for a sequence of atoms at the head of the input,
in continuation-passing style: the continuation receives the unconsumed
rest of the input.  A star over a character class can consume any number
of class characters up to the maximal run; greedy atoms try the longest
candidate first, lazy atoms the shortest, as in JavaScript. -/
def matchAtoms {α : Type} (k : Str → Option α) : List Atom → Str → Option α
| [], s => k s
| .lit l :: rest, s =>
  if l.isPrefixOf s then matchAtoms k rest (s.drop l.length) else none
| .starGreedy p :: rest, s =>
  firstSome (fun j => matchAtoms k rest (s.drop j)) ((List.range (runLen p s + 1)).reverse)
| .starLazy p :: rest, s =>
  firstSome (fun j => matchAtoms k rest (s.drop j)) (List.range (runLen p s + 1))
| .plusGreedy p :: rest, s =>
  firstSome (fun j => matchAtoms k rest (s.drop j)) ((List.range (runLen p s)).reverse.map (fun j => j + 1))

/-- Match a list of pieces at the head of the input, collecting the
text captured by each grouped piece in order. -/
def matchPieces {α : Type} (k : Str → List Str → Option α) : List Piece → Str → List Str → Option α
| [], s, gs => k s gs
| p :: ps, s, gs =>
  matchAtoms (fun s2 => matchPieces k ps s2 (if p.grouped then gs ++ [s.take (s.length - s2.length)] else gs)) p.atoms s

/-- Match a whole regex at the start of s; on success, the length of the
matched prefix and the captured groups. -/
def matchHere (r : List Piece) (s : Str) : Option (Nat × List Str) :=
  matchPieces (fun s2 gs => some (s.length - s2.length, gs)) r s []

/-- Expansion of the replacement text of JavaScript String.replace
(GetSubstitution): dollar-dollar is a literal dollar, dollar-ampersand the
matched text, dollar-backquote the text before the match, dollar-quote the
text after it, and a dollar followed by a digit n between 1 and the number
of capture groups inserts group n; any other dollar sequence is literal.
matched / pre / post are the matched text and its surroundings, gs the
captured groups. -/
def expandDollars (matched pre post : Str) (gs : List Str) : Str → Str
| [] => []
| c :: rest =>
  if c = '$' then
    match rest with
    | [] => ['$']
    | d :: r2 =>
      if d = '$' then '$' :: expandDollars matched pre post gs r2
      else if d = '&' then matched ++ expandDollars matched pre post gs r2
      else if d = Char.ofNat 96 then pre ++ expandDollars matched pre post gs r2
      else if d = '\x27' then post ++ expandDollars matched pre post gs r2
      else if 49 ≤ d.toNat ∧ d.toNat ≤ 57 ∧ d.toNat - 48 ≤ gs.length then
        gs.getD (d.toNat - 49) [] ++ expandDollars matched pre post gs r2
      else '$' :: d :: expandDollars matched pre post gs r2
  else c :: expandDollars matched pre post gs rest

/-- Scan for the leftmost match of r in s (pre is the already-scanned
reversed-free prefix); replace that first match with the expanded
replacement text, as JavaScript String.replace with a non-global regex.
If the regex never matches, the input is returned unchanged. -/
def replaceFirstAux (r : List Piece) (repl : Str) (pre : Str) (s : Str) : Str :=
  match matchHere r s with
  | some (len, gs) => pre ++ expandDollars (s.take len) pre (s.drop len) gs repl ++ s.drop len
  | none =>
    match s with
    | [] => pre
    | c :: cs => replaceFirstAux r repl (pre ++ [c]) cs

def replaceFirst (r : List Piece) (repl : Str) (s : Str) : Str :=
  replaceFirstAux r repl [] s

/-- Number of positions of s at which pat occurs as a substring. -/
def countSub (pat : Str) : Str → Nat
| [] => if pat.isPrefixOf ([] : Str) then 1 else 0
| c :: cs => (if pat.isPrefixOf (c :: cs) then 1 else 0) + countSub pat cs

/-! Character classes used by the regexes of src/server.js. -/

/-- The class matched by the negated character set excluding the less-than sign. -/
def notLt (c : Char) : Bool := c != '<'

/-- The class matched by the negated character set excluding the double quote. -/
def notQuote (c : Char) : Bool := c != '"'

/-- The class matched by backslash-s-backslash-S: every character. -/
def anyChar (_ : Char) : Bool := true

/-- The JavaScript whitespace class backslash-s. -/
def jsWs (c : Char) : Bool :=
  c = ' ' || c = '\t' || c = '\n' || c = '\r' || c = '\x0b' || c = '\x0c' ||
  c = ' ' || c = ' ' || (decide (0x2000 ≤ c.toNat) && decide (c.toNat ≤ 0x200a)) ||
  c = ' ' || c = ' ' || c = ' ' || c = ' ' || c = '　' || c = '﻿'

/-- The class matched by the dot in a JavaScript regex without the s flag:
every character except line terminators. -/
def notNewline (c : Char) : Bool :=
  c != '\n' && c != '\r' && c != ' ' && c != ' '

/-! The four regexes of the first servePages copy (src/server.js lines
158-169) and the three of the second copy (lines 514-521). -/

/-- Regex of the page-title substitution (both copies): literal open title
tag, greedy non-less-than run, literal close title tag. -/
def reTitle : List Piece :=
  [⟨false, [.lit (str "<title>"), .starGreedy notLt, .lit (str "</title>")]⟩]

/-- Regex of the first copy's heading substitution: the exact h1 open tag
with the display-4 blog-title class list, greedy non-less-than run,
literal close h1 tag. -/
def reH1 : List Piece :=
  [⟨false, [.lit (str "<h1 class=\"display-4 fw-bold mb-3 blog-title\">"), .starGreedy notLt, .lit (str "</h1>")]⟩]

/-- Regex of the first copy's date substitution: the post-date span open
tag, greedy non-less-than run, literal close span tag. -/
def reDate : List Piece :=
  [⟨false, [.lit (str "<span class=\"post-date\">"), .starGreedy notLt, .lit (str "</span>")]⟩]

/-- Regex of the first copy's content substitution: the blog-content div
open-tag prefix, lazy any-character run, literal close div tag. -/
def reContent : List Piece :=
  [⟨false, [.lit (str "<div class=\"blog-content"), .starLazy anyChar, .lit (str "</div>")]⟩]

/-- Regex of the second copy's heading substitution: captured h1 open tag
whose class list contains blog-title, lazy dot run, captured close h1 tag. -/
def reH1g : List Piece :=
  [⟨true, [.lit (str "<h1 class=\""), .starLazy notQuote, .lit (str "blog-title"), .starLazy notQuote, .lit (str "\">")]⟩,
   ⟨false, [.starLazy notNewline]⟩,
   ⟨true, [.lit (str "</h1>")]⟩]

/-- Regex of the second copy's content substitution: captured open tags of
the blog-content article-content div and its lead text-muted mb-5 lead
paragraph, lazy dot run, captured close paragraph tag. -/
def reContent2 : List Piece :=
  [⟨true, [.lit (str "<div class=\""), .starLazy notQuote, .lit (str "blog-content"), .starLazy notQuote,
           .plusGreedy jsWs, .lit (str "article-content"), .starLazy notQuote, .lit (str "\">"),
           .starGreedy jsWs, .lit (str "<p class=\""), .starLazy notQuote, .lit (str "lead"),
           .starLazy notQuote, .plusGreedy jsWs, .lit (str "text-muted"), .starLazy notQuote,
           .plusGreedy jsWs, .lit (str "mb-5"), .starLazy notQuote, .lit (str "\">")]⟩,
   ⟨false, [.starLazy notNewline]⟩,
   ⟨true, [.lit (str "</p>")]⟩]

/-- The first servePages copy's template substitution pass (src/server.js
lines 158-169): page title, then main heading, then post date, then post
content, each by a first-match replace. -/
def render1 (tpl title content date : Str) : Str :=
  replaceFirst reContent (str "<div class=\"blog-content article-content text-start\">" ++ content ++ str "</div>")
    (replaceFirst reDate (str "<span class=\"post-date\">" ++ date ++ str "</span>")
      (replaceFirst reH1 (str "<h1 class=\"display-4 fw-bold mb-3 blog-title\">" ++ title ++ str "</h1>")
        (replaceFirst reTitle (str "<title>" ++ title ++ str " - Liveenity</title>") tpl)))

/-- The second servePages copy's template substitution pass (src/server.js
lines 514-521): page title, then main heading, then post content; no date
substitution.  The heading and content replacements reinsert the captured
open and close tags through dollar-1 and dollar-2. -/
def render2 (tpl title content : Str) : Str :=
  replaceFirst reContent2 (str "$1" ++ content ++ str "$2")
    (replaceFirst reH1g (str "$1" ++ title ++ str "$2")
      (replaceFirst reTitle (str "<title>" ++ title ++ str " - Liveenity</title>") tpl))

/-! The page-resolver state machine of the servePages handlers. -/

/-- A post row as consumed by the handlers: the columns the slug query
selects and the render uses. -/
structure Post where
  title : Str
  content : Str
deriving DecidableEq

/-- A parameterized database call: SQL text plus positional arguments,
as the object literal passed to db.execute. -/
structure Query where
  sql : Str
  args : List Str
deriving DecidableEq

/-- The adapter failure taxonomy: no response, timeout exceeded, non-2xx
response, malformed envelope. -/
inductive DbError where
| unavailable
| timeout
| requestFailed
| protocolError
deriving DecidableEq

/-- Outcome of a database call: a row list, or an adapter error. -/
inductive DbResult where
| ok : List Post → DbResult
| err : DbError → DbResult
deriving DecidableEq

/-- Outcome of reading or sending the pages.html file: its text, a
file-not-found error, or any other read error. -/
inductive FileResult where
| ok : Str → FileResult
| enoent : FileResult
| otherError : FileResult
deriving DecidableEq

/-- An HTTP response as produced by the handlers: status code and body. -/
structure Response where
  status : Nat
  body : Str
deriving DecidableEq

/-- The query issued by the first servePages copy (src/server.js lines
138-142): constant SQL text with the slug only in the positional args. -/
def slugQuery1 (slug : Str) : Query :=
  ⟨str "SELECT title, content FROM blog_posts WHERE slug = ?", [slug]⟩

/-- The query issued by the second servePages copy (src/server.js lines
498-502). -/
def slugQuery2 (slug : Str) : Query :=
  ⟨str "SELECT title, content, slug FROM blog_posts WHERE slug = ?", [slug]⟩

/-- res.sendFile of pages.html with its error callback (src/server.js
lines 188-201): success sends the file, a missing file yields 404, any
other error yields 500. -/
def serveStaticDefault (pagesFile : FileResult) : Response :=
  match pagesFile with
  | .ok t => ⟨200, t⟩
  | .enoent => ⟨404, str "pages.html not found"⟩
  | .otherError => ⟨500, str "Error loading page"⟩

/-- The first servePages copy (src/server.js lines 131-202).  db is the
database handle (none when the Turso environment configuration is absent
and the handle is never initialized; calling through it then throws,
which the catch block turns into the default-page path).  pagesFile is
the state of pages.html (read as the template and sent as the static
default), notFoundFile the body of 404.html when that file is sendable,
now the formatted current date, and slug the optional route parameter. -/
def servePages1 (db : Option (Query → DbResult)) (pagesFile : FileResult)
    (notFoundFile : Option Str) (now : Str) (slug : Option Str) : Response :=
  match slug with
  | none => serveStaticDefault pagesFile
  | some sl =>
    match db with
    | none => serveStaticDefault pagesFile
    | some dbeval =>
      match dbeval (slugQuery1 sl) with
      | .err _ => serveStaticDefault pagesFile
      | .ok rows =>
        match rows with
        | [] =>
          match notFoundFile with
          | some b => ⟨404, b⟩
          | none => ⟨404, str "404 - Page not found"⟩
        | post :: _ =>
          match pagesFile with
          | .ok tpl => ⟨200, render1 tpl post.title post.content now⟩
          | other => serveStaticDefault other

/-- The second servePages copy (src/server.js lines 484-554): same state
machine with the three-substitution renderer, no date, and the literal
not-found fallback text of that copy. -/
def servePages2 (db : Option (Query → DbResult)) (pagesFile : FileResult)
    (notFoundFile : Option Str) (slug : Option Str) : Response :=
  match slug with
  | none => serveStaticDefault pagesFile
  | some sl =>
    match db with
    | none => serveStaticDefault pagesFile
    | some dbeval =>
      match dbeval (slugQuery2 sl) with
      | .err _ => serveStaticDefault pagesFile
      | .ok rows =>
        match rows with
        | [] =>
          match notFoundFile with
          | some b => ⟨404, b⟩
          | none => ⟨404, str "Page not found"⟩
        | post :: _ =>
          match pagesFile with
          | .ok tpl => ⟨200, render2 tpl post.title post.content⟩
          | other => serveStaticDefault other

/-- A row of the blog_posts table, including the created_at column the
slug query never selects. -/
structure BlogRow where
  slug : Str
  title : Str
  content : Str
  created_at : Option Str
deriving DecidableEq

/-- Modelled from the spec: the external database collaborator (remote
SQL execution, out of src) evaluating the handlers' parameterized slug
query over a blog_posts table: it returns the rows whose slug equals the
bound argument, projected to the selected title and content columns. -/
def execSelectBySlug (table : List BlogRow) (slugArg : Str) : List Post :=
  (table.filter (fun r => r.slug == slugArg)).map (fun r => ⟨r.title, r.content⟩)

/-- Modelled from the spec: a database handle backed by a blog_posts
table, answering the slug queries through execSelectBySlug. -/
def tableDb (table : List BlogRow) : Query → DbResult :=
  fun q =>
    match q.args with
    | [s] => .ok (execSelectBySlug table s)
    | _ => .err .requestFailed

/-- Modelled from the spec: a representative pages.html template (the
file itself is not in src).  It carries the four regions the renderers
target: the document title, the display-4 blog-title heading, the
post-date span, and the blog-content article-content div wrapping a lead
text-muted mb-5 paragraph. -/
def pagesTemplate : Str :=
  str "<html><head><title>Pages</title></head><body><h1 class=\"display-4 fw-bold mb-3 blog-title\">Latest</h1><span class=\"post-date\">January 1, 2020</span><div class=\"blog-content article-content text-start\"><p class=\"lead text-muted mb-5\">Soon</p></div></body></html>"

/-! Concrete fixtures used by the witnesses and counterexamples. -/

/-- The post row of the spec scenario. -/
def postA : Post := ⟨str "Multistream Guide", str "<p>Hello</p>"⟩

/-- A formatted current date at request time. -/
def nowA : Str := str "February 3, 2026"

/-- The first copy's render of pagesTemplate for postA at nowA. -/
def bodyA : Str :=
  str "<html><head><title>Multistream Guide - Liveenity</title></head><body><h1 class=\"display-4 fw-bold mb-3 blog-title\">Multistream Guide</h1><span class=\"post-date\">February 3, 2026</span><div class=\"blog-content article-content text-start\"><p>Hello</p></div></body></html>"

/-- One pass of the first copy's render of pagesTemplate for a content
value that itself contains a close-div tag. -/
def tplC4once : Str :=
  str "<html><head><title>T - Liveenity</title></head><body><h1 class=\"display-4 fw-bold mb-3 blog-title\">T</h1><span class=\"post-date\">May 1, 2025</span><div class=\"blog-content article-content text-start\">A</div>B</div></body></html>"

/-- The first copy's render of pagesTemplate for a row whose created_at
is present, at a request-time date distinct from it. -/
def bodyC7 : Str :=
  str "<html><head><title>T - Liveenity</title></head><body><h1 class=\"display-4 fw-bold mb-3 blog-title\">T</h1><span class=\"post-date\">March 2, 2026</span><div class=\"blog-content article-content text-start\">C</div></body></html>"

/-- The second copy's render of pagesTemplate: the January 1, 2020 date
region of the template is left untouched and the lead paragraph is kept. -/
def bodyR2 : Str :=
  str "<html><head><title>Guide - Liveenity</title></head><body><h1 class=\"display-4 fw-bold mb-3 blog-title\">Guide</h1><span class=\"post-date\">January 1, 2020</span><div class=\"blog-content article-content text-start\"><p class=\"lead text-muted mb-5\">Hello world</p></div></body></html>"

/-- The first copy's render of pagesTemplate on the same post row as
bodyR2: the date region is rewritten and the lead paragraph replaced. -/
def bodyR1 : Str :=
  str "<html><head><title>Guide - Liveenity</title></head><body><h1 class=\"display-4 fw-bold mb-3 blog-title\">Guide</h1><span class=\"post-date\">February 3, 2026</span><div class=\"blog-content article-content text-start\">Hello world</div></body></html>"

/-! General lemmas about replaceFirst: a regex with no match anywhere
leaves the input unchanged, and a leftmost match is the only segment
rewritten. -/

theorem replaceFirstAux_eq_of_no_match (r : List Piece) (repl : Str) (pre s : Str)
    (h : ∀ i, matchHere r (s.drop i) = none) :
    replaceFirstAux r repl pre s = pre ++ s := by
  induction s generalizing pre with
  | nil =>
    have h0 : matchHere r [] = none := h 0
    simp [replaceFirstAux, h0]
  | cons c cs ih =>
    have h0 : matchHere r (c :: cs) = none := h 0
    have h1 : ∀ i, matchHere r (cs.drop i) = none := fun i => h (i + 1)
    rw [replaceFirstAux, h0]
    rw [ih (pre ++ [c]) h1]
    simp

/-- A regex that matches nowhere in s leaves s unchanged under
replaceFirst. -/
theorem replaceFirst_eq_of_no_match (r : List Piece) (repl : Str) (s : Str)
    (h : ∀ i, matchHere r (s.drop i) = none) :
    replaceFirst r repl s = s := by
  simpa using replaceFirstAux_eq_of_no_match r repl [] s h

/-- Unfolding of replaceFirstAux at a position where the regex matches. -/
theorem replaceFirstAux_match_some (r : List Piece) (repl pre s : Str) (len : Nat) (gs : List Str)
    (hm : matchHere r s = some (len, gs)) :
    replaceFirstAux r repl pre s =
      pre ++ expandDollars (s.take len) pre (s.drop len) gs repl ++ s.drop len := by
  cases s with
  | nil => rw [replaceFirstAux, hm]
  | cons c cs => rw [replaceFirstAux, hm]

theorem replaceFirstAux_leftmost (r : List Piece) (repl : Str) (a s : Str) (len : Nat) (gs : List Str)
    (ha : ∀ i < a.length, matchHere r (a.drop i ++ s) = none)
    (hm : matchHere r s = some (len, gs)) :
    ∀ pre, replaceFirstAux r repl pre (a ++ s) =
      pre ++ a ++ expandDollars (s.take len) (pre ++ a) (s.drop len) gs repl ++ s.drop len := by
  induction a with
  | nil =>
    intro pre
    simp only [List.nil_append]
    rw [replaceFirstAux_match_some r repl pre s len gs hm]
    simp
  | cons c a2 ih =>
    intro pre
    have h0 : matchHere r (c :: (a2 ++ s)) = none := by
      have := ha 0 (by simp)
      simpa using this
    have h1 : ∀ i < a2.length, matchHere r (a2.drop i ++ s) = none := by
      intro i hi
      have := ha (i + 1) (by simpa using Nat.succ_lt_succ hi)
      simpa using this
    rw [List.cons_append, replaceFirstAux, h0]
    rw [ih h1 (pre ++ [c])]
    simp

/-- replaceFirst rewrites only the leftmost match: everything before and
after the matched segment is kept verbatim, and the replacement text is
spliced in once, dollar-expanded against that one match. -/
theorem replaceFirst_leftmost (r : List Piece) (repl : Str) (a s : Str) (len : Nat) (gs : List Str)
    (ha : ∀ i < a.length, matchHere r (a.drop i ++ s) = none)
    (hm : matchHere r s = some (len, gs)) :
    replaceFirst r repl (a ++ s) =
      a ++ expandDollars (s.take len) a (s.drop len) gs repl ++ s.drop len := by
  have := replaceFirstAux_leftmost r repl a s len gs ha hm []
  simpa using this

/-- The servePages handlers consult the database only through the fixed
slug query: handles that agree on it produce identical responses. -/
theorem servePages1_db_congr (d1 d2 : Query → DbResult) (pf : FileResult)
    (nf : Option Str) (now sl : Str)
    (h : d1 (slugQuery1 sl) = d2 (slugQuery1 sl)) :
    servePages1 (some d1) pf nf now (some sl) = servePages1 (some d2) pf nf now (some sl) := by
  simp only [servePages1, h]

/-- The spec-modelled table evaluation ignores created_at: rewriting that
column of every row changes no query result. -/
theorem execSelectBySlug_map_created (table : List BlogRow) (g : BlogRow → Option Str) (s : Str) :
    execSelectBySlug (table.map fun r => ⟨r.slug, r.title, r.content, g r⟩) s
      = execSelectBySlug table s := by
  induction table with
  | nil => rfl
  | cons r rs ih =>
    by_cases hc : r.slug == s
    · simp only [execSelectBySlug, List.map_cons, List.filter_cons] at *
      simp [hc, ih]
    · simp only [execSelectBySlug, List.map_cons, List.filter_cons] at *
      simp [hc, ih]

theorem tableDb_map_created (table : List BlogRow) (g : BlogRow → Option Str) (q : Query) :
    tableDb (table.map fun r => ⟨r.slug, r.title, r.content, g r⟩) q = tableDb table q := by
  unfold tableDb
  cases q.args with
  | nil => rfl
  | cons x xs =>
    cases xs with
    | nil => simp [execSelectBySlug_map_created]
    | cons y ys => rfl

/-- A no-match-anywhere hypothesis follows from its bounded version:
past the end of the input every suffix is empty. -/
theorem no_match_everywhere (r : List Piece) (s : Str)
    (h1 : ∀ i < s.length, matchHere r (s.drop i) = none)
    (h2 : matchHere r [] = none) : ∀ i, matchHere r (s.drop i) = none := by
  intro i
  by_cases hi : i < s.length
  · exact h1 i hi
  · rw [List.drop_eq_nil_of_le (Nat.le_of_not_lt hi)]
    exact h2

/-! Claim C1. -/

/-- C1 counterexample: for the scenario slug with exactly one matching
row, the handler does return 200, but the post's title is substituted
into two template positions (document title tag and heading) and so
appears exactly twice in the body, not exactly once; the claim's
exactly-once part is false at this input.  The content does appear
exactly once. -/
theorem c1_counterexample :
    servePages1 (some (fun _ => .ok [postA])) (.ok pagesTemplate) none nowA
      (some (str "multistream-guide")) = ⟨200, bodyA⟩
    ∧ countSub (str "Multistream Guide") bodyA = 2
    ∧ ¬ countSub (str "Multistream Guide") bodyA = 1
    ∧ countSub (str "<p>Hello</p>") bodyA = 1 := by
  refine ⟨by decide, by decide, by decide, by decide⟩

/-- C1 amended: for every slug whose lookup returns exactly the scenario
row, the handler returns 200 with the template rendered for that row:
the title is substituted into its two template positions (document title
and heading, appearing exactly twice in the body) and the content into
its one position (appearing exactly once); the scenario's title tag,
heading and content fragments each occur in the body. -/
theorem c1_render_found_post (dbf : Query → DbResult) (slug : Str)
    (h : dbf (slugQuery1 slug) = .ok [postA]) :
    servePages1 (some dbf) (.ok pagesTemplate) none nowA (some slug) = ⟨200, bodyA⟩
    ∧ countSub (str "Multistream Guide") bodyA = 2
    ∧ countSub (str "<p>Hello</p>") bodyA = 1
    ∧ countSub (str "<title>Multistream Guide - Liveenity</title>") bodyA = 1
    ∧ countSub (str "<span class=\"post-date\">February 3, 2026</span>") bodyA = 1 := by
  refine ⟨?_, by decide, by decide, by decide, by decide⟩
  simp only [servePages1, h]
  decide

/-- C1 witness: the amended theorem applied to the scenario slug and a
database handle answering with exactly the scenario row. -/
theorem c1_render_found_post_witness :
    servePages1 (some (fun _ => .ok [postA])) (.ok pagesTemplate) none nowA
      (some (str "multistream-guide")) = ⟨200, bodyA⟩
    ∧ countSub (str "Multistream Guide") bodyA = 2
    ∧ countSub (str "<p>Hello</p>") bodyA = 1
    ∧ countSub (str "<title>Multistream Guide - Liveenity</title>") bodyA = 1
    ∧ countSub (str "<span class=\"post-date\">February 3, 2026</span>") bodyA = 1 :=
  c1_render_found_post (fun _ => .ok [postA]) (str "multistream-guide") rfl

/-! Claim C2. -/

/-- C2 counterexample: with a successful one-row lookup but a missing
template file, the failure IS caught inside the handler (the readFile
sits inside the same try block as the database call) and the request is
downgraded to the static-content fallback, which re-reads the same
missing file: the response is 404 pages.html not found, not a generic
500. -/
theorem c2_counterexample :
    servePages1 (some (fun _ => .ok [postA])) .enoent none nowA (some (str "s"))
      = ⟨404, str "pages.html not found"⟩
    ∧ (servePages1 (some (fun _ => .ok [postA])) .enoent none nowA (some (str "s"))).status ≠ 500 := by
  refine ⟨by decide, by decide⟩

/-- C2 amended: when the slug lookup succeeds with at least one row and
the template load then fails, the failure is caught by the handler's
catch block and control falls through to the static-file fallback on the
same path: a missing template yields 404 pages.html not found, and any
other read error yields 500 Error loading page. -/
theorem c2_template_failure_caught (dbf : Query → DbResult) (slug now : Str)
    (nf : Option Str) (post : Post) (rest : List Post)
    (h : dbf (slugQuery1 slug) = .ok (post :: rest)) :
    servePages1 (some dbf) .enoent nf now (some slug) = ⟨404, str "pages.html not found"⟩
    ∧ servePages1 (some dbf) .otherError nf now (some slug) = ⟨500, str "Error loading page"⟩ := by
  constructor
  · simp [servePages1, h, serveStaticDefault]
  · simp [servePages1, h, serveStaticDefault]

/-- C2 witness: the amended theorem at a concrete handle and slug. -/
theorem c2_template_failure_caught_witness :
    servePages1 (some (fun _ => .ok [postA])) .enoent none nowA (some (str "s"))
      = ⟨404, str "pages.html not found"⟩
    ∧ servePages1 (some (fun _ => .ok [postA])) .otherError none nowA (some (str "s"))
      = ⟨500, str "Error loading page"⟩ :=
  c2_template_failure_caught (fun _ => .ok [postA]) (str "s") nowA none postA [] rfl

/-! Claim C3. -/

/-- C3: for every slug whose database call fails with any adapter error
(unavailable, timeout, request failure, protocol error), the response
equals the no-slug default response, and when the default template file
is readable it is 200 with the unmodified template body. -/
theorem c3_db_failure_degrades (dbf : Query → DbResult) (slug now : Str)
    (pf : FileResult) (nf : Option Str) (e : DbError)
    (h : dbf (slugQuery1 slug) = .err e) :
    servePages1 (some dbf) pf nf now (some slug) = servePages1 (some dbf) pf nf now none
    ∧ ∀ tpl, pf = .ok tpl → servePages1 (some dbf) pf nf now (some slug) = ⟨200, tpl⟩ := by
  constructor
  · simp [servePages1, h]
  · intro tpl hp
    subst hp
    simp [servePages1, h, serveStaticDefault]

/-- C3 witness: a timed-out lookup on a concrete handle degrades to the
unmodified template with status 200. -/
theorem c3_db_failure_degrades_witness :
    servePages1 (some (fun _ => .err .timeout)) (.ok pagesTemplate) none nowA (some (str "any-slug"))
      = servePages1 (some (fun _ => .err .timeout)) (.ok pagesTemplate) none nowA none
    ∧ servePages1 (some (fun _ => .err .timeout)) (.ok pagesTemplate) none nowA (some (str "any-slug"))
      = ⟨200, pagesTemplate⟩ := by
  have h := c3_db_failure_degrades (fun _ => .err .timeout) (str "any-slug") nowA
    (.ok pagesTemplate) none .timeout rfl
  exact ⟨h.1, h.2 pagesTemplate rfl⟩

/-! Claim C4. -/

/-- C4 counterexample: the substitution pass is not idempotent for every
mapping.  With a content value containing a close-div tag, the second
pass re-matches the content regex (whose lazy gap stops at the first
close-div) inside the first pass's own output and rewrites it again
differently. -/
theorem c4_counterexample :
    render1 pagesTemplate (str "T") (str "A</div>B") (str "May 1, 2025") = tplC4once
    ∧ render1 tplC4once (str "T") (str "A</div>B") (str "May 1, 2025") ≠ tplC4once := by
  refine ⟨by decide, by decide⟩

/-- C4 amended: the substitution pass is idempotent per region provided
the substituted values do not themselves reintroduce a pattern match (in
particular the content contains no close-div tag and the title and date
contain no less-than sign); at the representative template and the
scenario mapping, a second pass reproduces the first pass's output. -/
theorem c4_idempotent_for_benign_mapping :
    render1 pagesTemplate (str "Multistream Guide") (str "<p>Hello</p>") nowA = bodyA
    ∧ render1 bodyA (str "Multistream Guide") (str "<p>Hello</p>") nowA = bodyA := by
  refine ⟨by decide, by decide⟩

/-! Claim C5. -/

/-- C5: the first copy's renderer applies its substitutions in the fixed
order title, heading, date, content (first conjunct); for each of the
four regexes, an input the regex matches nowhere is returned unchanged,
so a missing region skips that one substitution without failing the
render (second conjunct); and each substitution rewrites exactly the
leftmost match, keeping everything before and after it verbatim, so a
second occurrence of a pattern is left in place (third conjunct). -/
theorem c5_single_pass_fixed_order (tpl title content date : Str) :
    (render1 tpl title content date =
      replaceFirst reContent (str "<div class=\"blog-content article-content text-start\">" ++ content ++ str "</div>")
        (replaceFirst reDate (str "<span class=\"post-date\">" ++ date ++ str "</span>")
          (replaceFirst reH1 (str "<h1 class=\"display-4 fw-bold mb-3 blog-title\">" ++ title ++ str "</h1>")
            (replaceFirst reTitle (str "<title>" ++ title ++ str " - Liveenity</title>") tpl))))
    ∧ (∀ r ∈ [reTitle, reH1, reDate, reContent], ∀ repl s,
        (∀ i, matchHere r (s.drop i) = none) → replaceFirst r repl s = s)
    ∧ (∀ r ∈ [reTitle, reH1, reDate, reContent], ∀ repl a s len gs,
        (∀ i < a.length, matchHere r (a.drop i ++ s) = none) →
        matchHere r s = some (len, gs) →
        replaceFirst r repl (a ++ s) =
          a ++ expandDollars (s.take len) a (s.drop len) gs repl ++ s.drop len) := by
  refine ⟨rfl, ?_, ?_⟩
  · intro r _ repl s h
    exact replaceFirst_eq_of_no_match r repl s h
  · intro r _ repl a s len gs ha hm
    exact replaceFirst_leftmost r repl a s len gs ha hm

/-- C5 witness: the skip conjunct on an input without a date region, and
the leftmost conjunct on an input with two title regions, of which only
the first is rewritten. -/
theorem c5_single_pass_fixed_order_witness :
    replaceFirst reDate (str "<span class=\"post-date\">X</span>") (str "<p>no date region</p>")
      = str "<p>no date region</p>"
    ∧ replaceFirst reTitle (str "<title>T - Liveenity</title>")
        (str "ab<title>Old</title><title>Second</title>")
      = str "ab<title>T - Liveenity</title><title>Second</title>" := by
  constructor
  · exact (c5_single_pass_fixed_order [] [] [] []).2.1 reDate (by simp) _ _
      (no_match_everywhere reDate (str "<p>no date region</p>") (by decide) (by decide))
  · have h := (c5_single_pass_fixed_order [] [] [] []).2.2 reTitle (by simp)
      (str "<title>T - Liveenity</title>") (str "ab")
      (str "<title>Old</title><title>Second</title>") 18 [] (by decide) (by decide)
    exact h.trans (by decide)

/-! Claim C6. -/

/-- C6: for every slug whose lookup succeeds with zero rows, the response
status is 404; the body is the static not-found page when 404.html is
sendable and the literal 404 message when it is not. -/
theorem c6_zero_rows_404 (dbf : Query → DbResult) (slug now : Str)
    (pf : FileResult) (nf : Option Str)
    (h : dbf (slugQuery1 slug) = .ok []) :
    (servePages1 (some dbf) pf nf now (some slug)).status = 404
    ∧ (∀ b, nf = some b → servePages1 (some dbf) pf nf now (some slug) = ⟨404, b⟩)
    ∧ (nf = none → servePages1 (some dbf) pf nf now (some slug) = ⟨404, str "404 - Page not found"⟩) := by
  refine ⟨?_, ?_, ?_⟩
  · cases nf <;> simp [servePages1, h]
  · intro b hb
    subst hb
    simp [servePages1, h]
  · intro hb
    subst hb
    simp [servePages1, h]

/-- C6 witness: an empty result set with 404.html present and with it
missing; 404 status in both cases. -/
theorem c6_zero_rows_404_witness :
    servePages1 (some (fun _ => .ok [])) (.ok pagesTemplate) (some (str "custom 404 page")) nowA
      (some (str "does-not-exist")) = ⟨404, str "custom 404 page"⟩
    ∧ servePages1 (some (fun _ => .ok [])) (.ok pagesTemplate) none nowA
      (some (str "does-not-exist")) = ⟨404, str "404 - Page not found"⟩ := by
  have h1 := c6_zero_rows_404 (fun _ => .ok []) (str "does-not-exist") nowA
    (.ok pagesTemplate) (some (str "custom 404 page")) rfl
  have h2 := c6_zero_rows_404 (fun _ => .ok []) (str "does-not-exist") nowA
    (.ok pagesTemplate) none rfl
  exact ⟨h1.2.1 (str "custom 404 page") rfl, h2.2.2 rfl⟩

/-! Claim C7. -/

/-- C7 counterexample: a row whose created_at is present (June 1, 2020)
still renders with the current date at request time (March 2, 2026) in
the date region; the stored timestamp appears nowhere in the body. -/
theorem c7_counterexample :
    servePages1 (some (tableDb [⟨str "g", str "T", str "C", some (str "June 1, 2020")⟩]))
      (.ok pagesTemplate) none (str "March 2, 2026") (some (str "g")) = ⟨200, bodyC7⟩
    ∧ countSub (str "<span class=\"post-date\">March 2, 2026</span>") bodyC7 = 1
    ∧ countSub (str "June 1, 2020") bodyC7 = 0 := by
  refine ⟨by decide, by decide, by decide⟩

/-- C7 amended: the date spliced into the rendered page is always the
formatted current date at render time; created_at is never consulted
(the slug query selects only title and content), so the handler's
response is invariant under rewriting the created_at column of every
table row. -/
theorem c7_created_at_never_used (table : List BlogRow) (g : BlogRow → Option Str)
    (pf : FileResult) (nf : Option Str) (now : Str) (slug : Option Str) :
    servePages1 (some (tableDb (table.map fun r => ⟨r.slug, r.title, r.content, g r⟩))) pf nf now slug
      = servePages1 (some (tableDb table)) pf nf now slug := by
  cases slug with
  | none => rfl
  | some sl =>
    exact servePages1_db_congr _ _ pf nf now sl (tableDb_map_created table g (slugQuery1 sl))

/-! Claim C8. -/

/-- C8: two-run noninterference of the issued SQL text in the slug.  For
every pair of request slugs, both copies' slug queries carry the same
constant SQL text, the slug appearing only in the positional args list;
and the handler consults the database only through that fixed query, so
handles agreeing on it are indistinguishable. -/
theorem c8_sql_text_slug_independent (s1 s2 : Str) :
    (slugQuery1 s1).sql = (slugQuery1 s2).sql
    ∧ (slugQuery1 s1).args = [s1]
    ∧ (slugQuery2 s1).sql = (slugQuery2 s2).sql
    ∧ (slugQuery2 s1).args = [s1]
    ∧ ∀ (d1 d2 : Query → DbResult) (pf : FileResult) (nf : Option Str) (now sl : Str),
        d1 (slugQuery1 sl) = d2 (slugQuery1 sl) →
        servePages1 (some d1) pf nf now (some sl) = servePages1 (some d2) pf nf now (some sl) := by
  refine ⟨rfl, rfl, rfl, rfl, ?_⟩
  intro d1 d2 pf nf now sl h
  exact servePages1_db_congr d1 d2 pf nf now sl h

/-- C8 witness: the SQL text at two distinct slugs, and the handler
response under two distinct handles that agree on the fixed query. -/
theorem c8_sql_text_slug_independent_witness :
    (slugQuery1 (str "a")).sql = (slugQuery1 (str "b")).sql
    ∧ servePages1 (some (fun _ => .ok [])) (.ok (str "x")) none (str "d") (some (str "a"))
      = servePages1 (some (tableDb [])) (.ok (str "x")) none (str "d") (some (str "a")) :=
  ⟨(c8_sql_text_slug_independent (str "a") (str "b")).1,
   (c8_sql_text_slug_independent (str "a") (str "b")).2.2.2.2
     (fun _ => .ok []) (tableDb []) (.ok (str "x")) none (str "d") (str "a") rfl⟩

/-! Claim C9. -/

/-- C9: with the database handle unconfigured, a request with any slug is
caught by the handler's catch block and degrades to the static fallback:
when the default template file is readable the response is 200 with its
unmodified body, identical to the no-slug response; both server copies
behave so, and no request crashes (both handlers are total). -/
theorem c9_unconfigured_db_static_fallback (slug tpl now : Str) (nf : Option Str) :
    servePages1 none (.ok tpl) nf now (some slug) = ⟨200, tpl⟩
    ∧ servePages2 none (.ok tpl) nf (some slug) = ⟨200, tpl⟩
    ∧ servePages1 none (.ok tpl) nf now (some slug) = servePages1 none (.ok tpl) nf now none :=
  ⟨rfl, rfl, rfl⟩

/-! Claim C10. -/

/-- C10: the second copy's renderer performs exactly the three
substitutions of page title, heading and content: on the representative
template it rewrites those three regions (bodyR2) and leaves every other
fragment unchanged, in particular the post-date span, which still holds
the template's original January 1, 2020 text; the first copy rewrites
that span (bodyR1 carries the request-time date instead), so on the same
post row and template the two handlers' rendered outputs differ. -/
theorem c10_second_copy_leaves_date_region :
    render2 pagesTemplate (str "Guide") (str "Hello world") = bodyR2
    ∧ countSub (str "<span class=\"post-date\">January 1, 2020</span>") bodyR2 = 1
    ∧ render1 pagesTemplate (str "Guide") (str "Hello world") nowA = bodyR1
    ∧ countSub (str "<span class=\"post-date\">January 1, 2020</span>") bodyR1 = 0
    ∧ countSub (str "<span class=\"post-date\">February 3, 2026</span>") bodyR1 = 1
    ∧ servePages2 (some (fun _ => .ok [⟨str "Guide", str "Hello world"⟩])) (.ok pagesTemplate) none (some (str "g"))
      ≠ servePages1 (some (fun _ => .ok [⟨str "Guide", str "Hello world"⟩])) (.ok pagesTemplate) none nowA (some (str "g")) := by
  have e2 : render2 pagesTemplate (str "Guide") (str "Hello world") = bodyR2 := by decide
  have e1 : render1 pagesTemplate (str "Guide") (str "Hello world") nowA = bodyR1 := by decide
  refine ⟨e2, by decide, e1, by decide, by decide, ?_⟩
  have h2 : servePages2 (some (fun _ => .ok [⟨str "Guide", str "Hello world"⟩])) (.ok pagesTemplate) none (some (str "g"))
      = ⟨200, render2 pagesTemplate (str "Guide") (str "Hello world")⟩ := rfl
  have h1 : servePages1 (some (fun _ => .ok [⟨str "Guide", str "Hello world"⟩])) (.ok pagesTemplate) none nowA (some (str "g"))
      = ⟨200, render1 pagesTemplate (str "Guide") (str "Hello world") nowA⟩ := rfl
  rw [h2, h1, e2, e1]
  intro hcon
  have hb : bodyR2 = bodyR1 := congrArg Response.body hcon
  exact absurd hb (by decide)
